import Mathlib

/-!
Verification of the stress-assessment scoring service (`src/main.py`).

The core is `simple_stress_model`: a rule-based scorer that matches a fixed
weighted keyword lexicon against the lower-cased input text by substring
containment, applies a length penalty, rounds to two decimals, and assigns a
categorical label by thresholds.  The HTTP boundary (`/api/assess`,
`/api/history`) validates input length and degrades gracefully when the
document store is absent or failing.

Texts are embedded as `List Char`, weights and scores as `ℚ` (all the
Python floats involved are exact small decimals).
-/

namespace StressApi

/-- Helper for Python substring containment: does `needle` match at the head
of `hay`?  (Char-by-char equality, empty needle always matches.) -/
def begMatch : List Char → List Char → Bool
  | [], _ => true
  | _ :: _, [] => false
  | a :: as, b :: bs => a == b && begMatch as bs

/-- Python substring containment `needle in hay`: `needle` matches at the
head of some suffix of `hay`. -/
def isSubOf (needle : List Char) : List Char → Bool
  | [] => begMatch needle []
  | b :: bs => begMatch needle (b :: bs) || isSubOf needle bs

/-- The `stress_kw` dict of `simple_stress_model` (src/main.py lines 37-46). -/
def stress_kw : List (List Char × ℚ) :=
  [("stress".toList, 2), ("stressed".toList, 2), ("overwhelmed".toList, 2),
   ("pressure".toList, 3/2), ("tired".toList, 1), ("exhausted".toList, 3/2),
   ("burnout".toList, 2), ("workload".toList, 1)]

/-- The `anxiety_kw` dict (src/main.py lines 47-54). -/
def anxiety_kw : List (List Char × ℚ) :=
  [("anxious".toList, 2), ("worry".toList, 3/2), ("panic".toList, 2),
   ("nervous".toList, 1), ("fear".toList, 3/2), ("uneasy".toList, 1)]

/-- The `mood_kw` dict (src/main.py lines 55-63). -/
def mood_kw : List (List Char × ℚ) :=
  [("sad".toList, 3/2), ("down".toList, 1), ("depressed".toList, 2),
   ("hopeless".toList, 2), ("insomnia".toList, 3/2), ("sleep".toList, 1/2),
   ("headache".toList, 1/2)]

/-- Insert one key/value pair into an association list with Python-dict
semantics: an existing key keeps its position but takes the new value,
a fresh key is appended. -/
def dictInsert (m : List (List Char × ℚ)) (kv : List Char × ℚ) :
    List (List Char × ℚ) :=
  if m.any (fun p => p.1 == kv.1) then
    m.map (fun p => if p.1 == kv.1 then (p.1, kv.2) else p)
  else
    m ++ [kv]

/-- Python's `{**stress_kw, **anxiety_kw, **mood_kw}`: merge the three dicts
in order, later values overriding earlier ones. -/
def lexicon : List (List Char × ℚ) :=
  (stress_kw ++ anxiety_kw ++ mood_kw).foldl dictInsert []

/-- Round a rational to 2 decimal places (Python's `round(x, 2)`; ties here
round half away from zero for non-negative inputs, an admissible tie rule). -/
def roundTo2 (q : ℚ) : ℚ := (round (q * 100) : ℤ) / 100

/-- Label thresholds from src/main.py lines 78-85. -/
def labelOf (score : ℚ) : String :=
  if score ≥ 6 then "High"
  else if score ≥ 3 then "Moderate"
  else if score > 0 then "Low"
  else "Minimal"

/-- The `AssessmentResult` pydantic model (src/main.py lines 24-29), minus the
`created_at` timestamp, which no claim concerns.  `id` defaults to `None`. -/
structure AssessmentResult where
  score : ℚ
  label : String
  keywords : List (List Char)
  id : Option String := none
deriving DecidableEq, Repr

/-- `simple_stress_model` (src/main.py lines 32-87): lower-case the text,
fold over the merged lexicon accumulating matched keywords and the raw
score, apply the length penalty, round, and label. -/
def simple_stress_model (text : List Char) : AssessmentResult :=
  let text_l := text.map Char.toLower
  let acc := lexicon.foldl
    (fun acc p => if isSubOf p.1 text_l then (acc.1 ++ [p.1], acc.2 + p.2) else acc)
    (([] : List (List Char)), (0 : ℚ))
  let length_penalty : ℚ := min 1 (max (1/2) (100 / (text.length + 1)))
  let score := roundTo2 (acc.2 * length_penalty)
  { score := score, label := labelOf score, keywords := acc.1 }

/-- The lexicon entries that match a given text (spec-side reformulation of
the scoring loop: the loop appends exactly the matching entries in order). -/
def matchedEntries (text : List Char) : List (List Char × ℚ) :=
  lexicon.filter (fun p => isSubOf p.1 (text.map Char.toLower))

/-- Raw keyword score: sum of the weights of all matching lexicon entries. -/
def rawScore (text : List Char) : ℚ := ((matchedEntries text).map Prod.snd).sum

/-- The length penalty `min(1.0, max(0.5, 100 / (len(text) + 1)))`
(src/main.py line 75). -/
def lengthPenalty (text : List Char) : ℚ :=
  min 1 (max (1/2) (100 / (text.length + 1)))

/-- A client error produced by FastAPI request validation (HTTP status and
detail). -/
structure ClientError where
  status : Nat
  detail : String
deriving DecidableEq, Repr

/-- The document written by `assess_text` into the `assessments` collection
(src/main.py lines 144-150), minus the `created_at` timestamp. -/
structure StoredAssessment where
  text : List Char
  score : ℚ
  label : String
  keywords : List (List Char)

/-- A raw document as returned by `get_documents`, carrying the internal
`_id` of the store. -/
structure RawDoc where
  internalId : String
  text : List Char
  score : ℚ
  label : String
  keywords : List (List Char)

/-- A history entry after `clean` (src/main.py lines 164-167): the internal
identifier is exposed as the string field `id`. -/
structure HistoryDoc where
  id : String
  text : List Char
  score : ℚ
  label : String
  keywords : List (List Char)

/-- The document-store collaborator (`database.create_document` /
`database.get_documents`); each call may fail, modelled with `Except`.
The store itself may be absent (`Option` at the call sites), which in the
Python code shows up as an `ImportError` from `from database import ...`. -/
structure DocumentStore where
  create : String → StoredAssessment → Except String String
  query : String → Nat → Except String (List RawDoc)

/-- The document that `assess_text` persists for a given request text and
scoring result. -/
def docOf (text : List Char) (r : AssessmentResult) : StoredAssessment :=
  { text := text, score := r.score, label := r.label, keywords := r.keywords }

/-- The `POST /api/assess` endpoint (src/main.py lines 137-155) combined with
the pydantic validation of `AssessmentRequest.text` (line 21,
`min_length=10`): FastAPI rejects a request whose text has fewer than 10
characters with a 422 client error before the handler body, and hence the
scorer, runs.  Inside the handler, persistence is best-effort: an absent
store (`ImportError`) or a failing `create` is swallowed and the result is
returned without an `id`. -/
def assess_text (store : Option DocumentStore) (text : List Char) :
    Except ClientError AssessmentResult :=
  if text.length < 10 then
    Except.error { status := 422, detail := "String should have at least 10 characters" }
  else
    let result := simple_stress_model text
    match store with
    | none => Except.ok result
    | some st =>
      match st.create "assessments" (docOf text result) with
      | Except.ok docId => Except.ok { result with id := some docId }
      | Except.error _ => Except.ok result

/-- The `clean` helper of `get_history` (src/main.py lines 164-167): replace
the internal `_id` by a string `id` field. -/
def clean (d : RawDoc) : HistoryDoc :=
  { id := d.internalId, text := d.text, score := d.score, label := d.label,
    keywords := d.keywords }

/-- The `GET /api/history` endpoint (src/main.py lines 158-170): query up to
`limit` documents; any failure, including an absent store, yields `[]`. -/
def get_history (store : Option DocumentStore) (limit : Nat) : List HistoryDoc :=
  match store with
  | none => []
  | some st =>
    match st.query "assessments" limit with
    | Except.ok docs => docs.map clean
    | Except.error _ => []

/-- The first example text of the spec (§8). -/
def ex1 : List Char := "I feel so stressed and overwhelmed, I am exhausted".toList

/-- The second example text of the spec (§8). -/
def ex2 : List Char := "nothing unusual today, just a normal day".toList

/-! ### Helper lemmas about the embedding -/

/-- The three keyword dicts have pairwise distinct keys, so the Python dict
merge is plain concatenation. -/
theorem lexicon_eq : lexicon = stress_kw ++ anxiety_kw ++ mood_kw := rfl

/-- Head-matching is transitive along an extension of the needle. -/
theorem begMatch_trans (n₁ : List Char) :
    ∀ n₂ hay, begMatch n₁ n₂ = true → begMatch n₂ hay = true →
      begMatch n₁ hay = true := by
  induction n₁ with
  | nil => intro _ _ _ _; rfl
  | cons a as ih =>
    intro n₂ hay h₁ h₂
    cases n₂ with
    | nil => simp [begMatch] at h₁
    | cons b bs =>
      cases hay with
      | nil => simp [begMatch] at h₂
      | cons c cs =>
        simp only [begMatch, Bool.and_eq_true, beq_iff_eq] at h₁ h₂ ⊢
        exact ⟨h₁.1.trans h₂.1, ih bs cs h₁.2 h₂.2⟩

/-- If an extended needle occurs in `hay`, so does any needle that matches at
its head (e.g. `"stress"` occurs wherever `"stressed"` does). -/
theorem isSubOf_mono (n₁ n₂ : List Char) (hpre : begMatch n₁ n₂ = true) :
    ∀ hay, isSubOf n₂ hay = true → isSubOf n₁ hay = true := by
  intro hay
  induction hay with
  | nil =>
    intro h
    simp only [isSubOf] at h ⊢
    exact begMatch_trans n₁ n₂ [] hpre h
  | cons b bs ih =>
    intro h
    simp only [isSubOf, Bool.or_eq_true] at h ⊢
    cases h with
    | inl h => exact Or.inl (begMatch_trans n₁ n₂ (b :: bs) hpre h)
    | inr h => exact Or.inr (ih h)

/-- The scoring loop of `simple_stress_model`, run over any keyword list,
collects exactly the matching keywords in order and sums their weights. -/
theorem foldl_match (tl : List Char) :
    ∀ (l : List (List Char × ℚ)) (m : List (List Char)) (s : ℚ),
      l.foldl
        (fun acc p => if isSubOf p.1 tl then (acc.1 ++ [p.1], acc.2 + p.2) else acc)
        (m, s)
      = (m ++ (l.filter (fun p => isSubOf p.1 tl)).map Prod.fst,
         s + ((l.filter (fun p => isSubOf p.1 tl)).map Prod.snd).sum) := by
  intro l
  induction l with
  | nil => intro m s; simp
  | cons p l ih =>
    intro m s
    by_cases hp : isSubOf p.1 tl = true
    · simp [List.foldl_cons, List.filter_cons, hp, ih, add_assoc]
    · simp [List.foldl_cons, List.filter_cons, hp, ih]

/-- The keywords returned by the scorer are the matching lexicon entries. -/
theorem model_keywords (text : List Char) :
    (simple_stress_model text).keywords = (matchedEntries text).map Prod.fst := by
  simp only [simple_stress_model, matchedEntries]
  rw [foldl_match]
  simp

/-- The score returned by the scorer is the rounded, length-penalised raw
score. -/
theorem model_score (text : List Char) :
    (simple_stress_model text).score = roundTo2 (rawScore text * lengthPenalty text) := by
  simp only [simple_stress_model, rawScore, matchedEntries, lengthPenalty]
  rw [foldl_match]
  simp

/-- The label returned by the scorer is `labelOf` applied to its score. -/
theorem model_label (text : List Char) :
    (simple_stress_model text).label = labelOf (simple_stress_model text).score := by
  simp only [simple_stress_model, rawScore, matchedEntries, lengthPenalty]

/-- The scorer never sets the `id` field. -/
theorem model_id (text : List Char) : (simple_stress_model text).id = none := rfl

/-- Every lexicon weight is positive. -/
theorem lexicon_weights_pos : ∀ p ∈ lexicon, (0 : ℚ) < p.2 := by
  intro p hp
  rw [lexicon_eq] at hp
  simp only [stress_kw, anxiety_kw, mood_kw, List.mem_append] at hp
  rcases hp with (hp | hp) | hp <;> fin_cases hp <;> norm_num

/-- The matching entries form a sublist of the lexicon. -/
theorem matched_sublist (text : List Char) :
    (matchedEntries text).Sublist lexicon := List.filter_sublist lexicon

/-- The raw keyword score is non-negative. -/
theorem rawScore_nonneg (text : List Char) : 0 ≤ rawScore text := by
  apply List.sum_nonneg
  intro x hx
  simp only [List.mem_map] at hx
  obtain ⟨p, hp, rfl⟩ := hx
  exact le_of_lt (lexicon_weights_pos p ((matched_sublist text).subset hp))

/-- The length penalty never exceeds 1. -/
theorem lengthPenalty_le_one (text : List Char) : lengthPenalty text ≤ 1 :=
  min_le_left 1 _

/-- The length penalty is at least 1/2. -/
theorem half_le_lengthPenalty (text : List Char) : 1 / 2 ≤ lengthPenalty text :=
  le_min (by norm_num) (le_max_left _ _)

/-- The length penalty is positive. -/
theorem lengthPenalty_pos (text : List Char) : 0 < lengthPenalty text :=
  lt_of_lt_of_le (by norm_num) (half_le_lengthPenalty text)

/-- The length penalty is non-increasing in the text length. -/
theorem lengthPenalty_antitone (s t : List Char) (h : s.length ≤ t.length) :
    lengthPenalty t ≤ lengthPenalty s := by
  apply min_le_min (le_refl 1)
  apply max_le_max (le_refl (1 / 2))
  have hc : ((s.length : ℚ) + 1) ≤ (t.length : ℚ) + 1 := by
    have : (s.length : ℚ) ≤ (t.length : ℚ) := by exact_mod_cast h
    linarith
  have hs : (0 : ℚ) < (s.length : ℚ) + 1 := by positivity
  exact div_le_div_of_nonneg_left (by norm_num) hs hc

/-- Scores of at least 6 are labelled High. -/
theorem labelOf_high {s : ℚ} (h : s ≥ 6) : labelOf s = "High" := by
  rw [labelOf, if_pos h]

/-- Scores in [3, 6) are labelled Moderate. -/
theorem labelOf_moderate {s : ℚ} (h₁ : s ≥ 3) (h₂ : s < 6) :
    labelOf s = "Moderate" := by
  rw [labelOf, if_neg (by exact not_le.mpr h₂), if_pos h₁]

/-- Scores in (0, 3) are labelled Low. -/
theorem labelOf_low {s : ℚ} (h₁ : s > 0) (h₂ : s < 3) : labelOf s = "Low" := by
  rw [labelOf, if_neg (by exact not_le.mpr (lt_trans h₂ (by norm_num))),
    if_neg (by exact not_le.mpr h₂), if_pos h₁]

/-- Non-positive scores are labelled Minimal. -/
theorem labelOf_minimal {s : ℚ} (h : s ≤ 0) : labelOf s = "Minimal" := by
  rw [labelOf, if_neg (by exact not_le.mpr (lt_of_le_of_lt h (by norm_num))),
    if_neg (by exact not_le.mpr (lt_of_le_of_lt h (by norm_num))),
    if_neg (by exact not_lt.mpr h)]

/-- Rounding to two decimals preserves non-negativity. -/
theorem roundTo2_nonneg {q : ℚ} (h : 0 ≤ q) : 0 ≤ roundTo2 q := by
  rw [roundTo2]
  apply div_nonneg _ (by norm_num)
  have hz : (0 : ℤ) ≤ round (q * 100) := by
    rw [round_eq]
    apply Int.floor_nonneg.mpr
    linarith
  exact_mod_cast hz

/-- One hundred times a two-decimal rounding is an integer. -/
theorem roundTo2_mul_hundred (q : ℚ) : ∃ z : ℤ, roundTo2 q * 100 = z := by
  refine ⟨round (q * 100), ?_⟩
  rw [roundTo2]
  field_simp

/-- A text matching no lexicon keyword scores 0, is labelled Minimal, and
yields no keywords. -/
theorem no_match_result (text : List Char)
    (h : ∀ p ∈ lexicon, isSubOf p.1 (text.map Char.toLower) = false) :
    (simple_stress_model text).score = 0 ∧
    (simple_stress_model text).label = "Minimal" ∧
    (simple_stress_model text).keywords = [] := by
  have hm : matchedEntries text = [] := by
    rw [matchedEntries]
    rw [List.filter_eq_nil_iff]
    intro p hp
    simp [h p hp]
  have hraw : rawScore text = 0 := by rw [rawScore, hm]; rfl
  have hscore : (simple_stress_model text).score = 0 := by
    rw [model_score, hraw, zero_mul, roundTo2]
    norm_num [round_eq]
  refine ⟨hscore, ?_, ?_⟩
  · rw [model_label, hscore]
    exact labelOf_minimal le_rfl
  · rw [model_keywords, hm]
    rfl

/-! ### Concrete evaluations on the example texts -/

set_option maxHeartbeats 1000000 in
/-- The lexicon entries matching the first example text. -/
theorem ex1_matched : matchedEntries ex1 =
    [("stress".toList, 2), ("stressed".toList, 2), ("overwhelmed".toList, 2),
     ("exhausted".toList, 3/2)] := rfl

/-- The first example text has 50 characters. -/
theorem ex1_len : ex1.length = 50 := rfl

/-- Raw score of the first example text: 2 + 2 + 2 + 1.5. -/
theorem ex1_raw : rawScore ex1 = 15 / 2 := by
  rw [rawScore, ex1_matched]
  norm_num

/-- Length penalty of the first example text: 100/51 clamps to 1. -/
theorem ex1_penalty : lengthPenalty ex1 = 1 := by
  rw [lengthPenalty, ex1_len]
  rw [min_def, max_def]
  norm_num

/-- Final score of the first example text. -/
theorem ex1_score : (simple_stress_model ex1).score = 15 / 2 := by
  rw [model_score, ex1_raw, ex1_penalty, mul_one, roundTo2]
  norm_num [round_eq]

/-- Label of the first example text. -/
theorem ex1_label : (simple_stress_model ex1).label = "High" := by
  rw [model_label, ex1_score]
  exact labelOf_high (by norm_num)

/-- No lexicon keyword occurs in the second example text. -/
theorem ex2_no_match : ∀ p ∈ lexicon, isSubOf p.1 (ex2.map Char.toLower) = false := by
  decide

/-- A document store whose every operation fails. -/
def failingStore : DocumentStore where
  create := fun _ _ => Except.error "database not available"
  query := fun _ _ => Except.error "database not available"

/-! ### Claim theorems -/

/-- C1 (counterexample): on the first spec example text, `simple_stress_model`
does NOT return the keyword list, raw score 5.5, final score 5.5 and label
"Moderate" asserted by the spec — the keyword `"stress"` also matches as a
substring of `"stressed"`, so every one of those values differs. -/
theorem claim_C1_counterexample :
    (simple_stress_model ex1).keywords ≠
      ["stressed".toList, "overwhelmed".toList, "exhausted".toList] ∧
    rawScore ex1 ≠ 11 / 2 ∧
    (simple_stress_model ex1).score ≠ 11 / 2 ∧
    (simple_stress_model ex1).label ≠ "Moderate" := by
  refine ⟨?_, ?_, ?_, ?_⟩
  · rw [model_keywords, ex1_matched]; decide
  · rw [ex1_raw]; norm_num
  · rw [ex1_score]; norm_num
  · rw [ex1_label]; decide

/-- C1 (amended): for the input text "I feel so stressed and overwhelmed, I
am exhausted", `simple_stress_model` returns the matched keywords "stress",
"stressed", "overwhelmed", "exhausted" with raw score 7.5, length penalty
1.0, final score 7.5, and label "High". -/
theorem claim_C1 :
    (simple_stress_model ex1).keywords =
      ["stress".toList, "stressed".toList, "overwhelmed".toList, "exhausted".toList] ∧
    rawScore ex1 = 15 / 2 ∧
    lengthPenalty ex1 = 1 ∧
    (simple_stress_model ex1).score = 15 / 2 ∧
    (simple_stress_model ex1).label = "High" := by
  refine ⟨?_, ex1_raw, ex1_penalty, ex1_score, ex1_label⟩
  rw [model_keywords, ex1_matched]
  decide

/-- C2: whenever the lower-cased text contains "stressed", the matched
keywords contain both "stress" and "stressed", and both weights contribute
to the raw score (which is therefore at least 4). -/
theorem claim_C2 (text : List Char)
    (h : isSubOf "stressed".toList (text.map Char.toLower) = true) :
    "stress".toList ∈ (simple_stress_model text).keywords ∧
    "stressed".toList ∈ (simple_stress_model text).keywords ∧
    4 ≤ rawScore text := by
  have hs : isSubOf "stress".toList (text.map Char.toLower) = true :=
    isSubOf_mono _ _ (by decide) _ h
  have hme : matchedEntries text =
      ("stress".toList, (2 : ℚ)) :: ("stressed".toList, (2 : ℚ)) ::
        ((lexicon.drop 2).filter (fun p => isSubOf p.1 (text.map Char.toLower))) := by
    rw [matchedEntries]
    conv_lhs => rw [show lexicon = ("stress".toList, (2 : ℚ)) ::
      ("stressed".toList, (2 : ℚ)) :: lexicon.drop 2 from rfl]
    rw [List.filter_cons, List.filter_cons, if_pos hs, if_pos h]
  have htail : (0 : ℚ) ≤
      (((lexicon.drop 2).filter
          (fun p => isSubOf p.1 (text.map Char.toLower))).map Prod.snd).sum := by
    apply List.sum_nonneg
    intro x hx
    simp only [List.mem_map] at hx
    obtain ⟨p, hp, rfl⟩ := hx
    have hp₂ : p ∈ lexicon :=
      ((List.filter_sublist (lexicon.drop 2)).trans (List.drop_sublist 2 lexicon)).subset hp
    exact le_of_lt (lexicon_weights_pos p hp₂)
  refine ⟨?_, ?_, ?_⟩
  · rw [model_keywords, hme]
    exact List.mem_cons_self _ _
  · rw [model_keywords, hme]
    exact List.mem_cons_of_mem _ (List.mem_cons_self _ _)
  · rw [rawScore, hme]
    simp only [List.map_cons, List.sum_cons]
    linarith

/-- C2 witness: the substring interplay on the first example text, which
contains "stressed". -/
theorem claim_C2_witness :
    "stress".toList ∈ (simple_stress_model ex1).keywords ∧
    "stressed".toList ∈ (simple_stress_model ex1).keywords ∧
    4 ≤ rawScore ex1 :=
  claim_C2 ex1 (by decide)

/-- C3: the scorer labels by `labelOf`, and on non-negative scores the four
label bands are characterised exactly by the stated thresholds — hence
exhaustive and mutually exclusive. -/
theorem claim_C3 :
    (∀ text, (simple_stress_model text).label = labelOf (simple_stress_model text).score) ∧
    ∀ s : ℚ, 0 ≤ s →
      (labelOf s = "High" ↔ 6 ≤ s) ∧
      (labelOf s = "Moderate" ↔ 3 ≤ s ∧ s < 6) ∧
      (labelOf s = "Low" ↔ 0 < s ∧ s < 3) ∧
      (labelOf s = "Minimal" ↔ s = 0) := by
  refine ⟨model_label, ?_⟩
  intro s hs
  by_cases h6 : 6 ≤ s
  · rw [labelOf_high h6]
    refine ⟨iff_of_true rfl h6, iff_of_false (by decide) ?_,
      iff_of_false (by decide) ?_, iff_of_false (by decide) ?_⟩
    · rintro ⟨-, hlt⟩; linarith
    · rintro ⟨-, hlt⟩; linarith
    · rintro rfl; linarith
  · by_cases h3 : 3 ≤ s
    · rw [labelOf_moderate h3 (not_le.mp h6)]
      refine ⟨iff_of_false (by decide) h6,
        iff_of_true rfl ⟨h3, not_le.mp h6⟩,
        iff_of_false (by decide) ?_, iff_of_false (by decide) ?_⟩
      · rintro ⟨-, hlt⟩; linarith
      · rintro rfl; linarith
    · by_cases h0 : 0 < s
      · rw [labelOf_low h0 (not_le.mp h3)]
        refine ⟨iff_of_false (by decide) h6,
          iff_of_false (by decide) ?_,
          iff_of_true rfl ⟨h0, not_le.mp h3⟩, iff_of_false (by decide) ?_⟩
        · rintro ⟨hge, -⟩; exact h3 hge
        · rintro rfl; linarith
      · have hs0 : s = 0 := le_antisymm (not_lt.mp h0) hs
        subst hs0
        rw [labelOf_minimal le_rfl]
        exact ⟨iff_of_false (by decide) (by norm_num),
          iff_of_false (by decide) (by norm_num),
          iff_of_false (by decide) (by norm_num),
          iff_of_true rfl rfl⟩

/-- C3 witness: the characterisation applied at the concrete score 4. -/
theorem claim_C3_witness : labelOf 4 = "Moderate" :=
  ((claim_C3.2 4 (by norm_num)).2.1).mpr ⟨by norm_num, by norm_num⟩

/-- C4: the final score is the raw substring-match weight sum, damped by the
length penalty `min(1, max(1/2, 100/(len+1)))` and rounded to two decimals. -/
theorem claim_C4 (text : List Char) :
    (simple_stress_model text).score =
      roundTo2
        (((lexicon.filter (fun p => isSubOf p.1 (text.map Char.toLower))).map Prod.snd).sum *
          min 1 (max (1 / 2) (100 / ((text.length : ℚ) + 1)))) := by
  rw [model_score]
  rfl

/-- C5: a text in which no lexicon keyword occurs scores 0 with label
Minimal and no keywords; in particular the second spec example does. -/
theorem claim_C5 :
    (∀ text, (∀ p ∈ lexicon, isSubOf p.1 (text.map Char.toLower) = false) →
      (simple_stress_model text).score = 0 ∧
      (simple_stress_model text).label = "Minimal" ∧
      (simple_stress_model text).keywords = []) ∧
    ((simple_stress_model ex2).score = 0 ∧
     (simple_stress_model ex2).label = "Minimal" ∧
     (simple_stress_model ex2).keywords = []) :=
  ⟨no_match_result, no_match_result ex2 ex2_no_match⟩

/-- C5 witness: the no-match case applied to the concrete example text. -/
theorem claim_C5_witness :
    (simple_stress_model ex2).score = 0 ∧
    (simple_stress_model ex2).label = "Minimal" ∧
    (simple_stress_model ex2).keywords = [] :=
  claim_C5.1 ex2 (by decide)

/-- C6: a request whose text is shorter than 10 characters is rejected with
a 422 client error; the error branch is taken before the scorer runs, for
any state of the store. -/
theorem claim_C6 (store : Option DocumentStore) (text : List Char)
    (h : text.length < 10) :
    assess_text store text =
      Except.error
        { status := 422, detail := "String should have at least 10 characters" } := by
  rw [assess_text, if_pos h]

/-- C6 witness: a 9-character request is rejected. -/
theorem claim_C6_witness :
    assess_text none "too short".toList =
      Except.error
        { status := 422, detail := "String should have at least 10 characters" } :=
  claim_C6 none "too short".toList (by decide)

/-- C7: persistence failures are invisible to the caller — with the store
absent or `create` failing, `/api/assess` still returns the scoring result,
whose `id` stays `none`; and `/api/history` returns `[]` whenever the store
is absent or `query` fails. -/
theorem claim_C7 :
    (∀ text, (simple_stress_model text).id = none) ∧
    (∀ text, 10 ≤ text.length →
      assess_text none text = Except.ok (simple_stress_model text)) ∧
    (∀ st text e, 10 ≤ text.length →
      st.create "assessments" (docOf text (simple_stress_model text)) = Except.error e →
      assess_text (some st) text = Except.ok (simple_stress_model text)) ∧
    (∀ limit, get_history none limit = []) ∧
    (∀ st limit e, st.query "assessments" limit = Except.error e →
      get_history (some st) limit = []) := by
  refine ⟨model_id, ?_, ?_, ?_, ?_⟩
  · intro text h
    rw [assess_text, if_neg (not_lt.mpr h)]
  · intro st text e h hc
    rw [assess_text, if_neg (not_lt.mpr h)]
    simp only [hc]
  · intro limit; rfl
  · intro st limit e h
    simp [get_history, h]

/-- C7 witness: a concrete always-failing store and the 40-character example
text exercise every degraded path. -/
theorem claim_C7_witness :
    (simple_stress_model ex2).id = none ∧
    assess_text none ex2 = Except.ok (simple_stress_model ex2) ∧
    assess_text (some failingStore) ex2 = Except.ok (simple_stress_model ex2) ∧
    get_history none 10 = [] ∧
    get_history (some failingStore) 10 = [] :=
  ⟨claim_C7.1 ex2,
   claim_C7.2.1 ex2 (by decide),
   claim_C7.2.2.1 failingStore ex2 "database not available" (by decide) rfl,
   claim_C7.2.2.2.1 10,
   claim_C7.2.2.2.2 failingStore 10 "database not available" rfl⟩

/-- C8: the matched keyword sequence is a sublist of the merged lexicon keys
(insertion order of the three concatenated category dicts) and has no
duplicates. -/
theorem claim_C8 (text : List Char) :
    (simple_stress_model text).keywords.Sublist (lexicon.map Prod.fst) ∧
    (simple_stress_model text).keywords.Nodup ∧
    lexicon = stress_kw ++ anxiety_kw ++ mood_kw := by
  have hsub : (simple_stress_model text).keywords.Sublist (lexicon.map Prod.fst) := by
    rw [model_keywords]
    exact (matched_sublist text).map Prod.fst
  have hnd : (lexicon.map Prod.fst).Nodup := by decide
  exact ⟨hsub, hnd.sublist hsub, lexicon_eq⟩

/-- C9: the length penalty is non-increasing in text length, and always lies
in the closed interval [1/2, 1]. -/
theorem claim_C9 :
    (∀ s t : List Char, s.length ≤ t.length → lengthPenalty t ≤ lengthPenalty s) ∧
    (∀ t : List Char, 1 / 2 ≤ lengthPenalty t ∧ lengthPenalty t ≤ 1) :=
  ⟨lengthPenalty_antitone,
   fun t => ⟨half_le_lengthPenalty t, lengthPenalty_le_one t⟩⟩

/-- C9 witness: monotonicity and bounds at two concrete texts. -/
theorem claim_C9_witness :
    lengthPenalty "abcd".toList ≤ lengthPenalty "ab".toList ∧
    1 / 2 ≤ lengthPenalty "ab".toList ∧ lengthPenalty "ab".toList ≤ 1 :=
  ⟨claim_C9.1 "ab".toList "abcd".toList (by decide),
   (claim_C9.2 "ab".toList).1, (claim_C9.2 "ab".toList).2⟩

/-- C10: every score is non-negative and is an integer number of
hundredths. -/
theorem claim_C10 (text : List Char) :
    0 ≤ (simple_stress_model text).score ∧
    ∃ z : ℤ, (simple_stress_model text).score * 100 = z := by
  rw [model_score]
  exact ⟨roundTo2_nonneg
      (mul_nonneg (rawScore_nonneg text) (le_of_lt (lengthPenalty_pos text))),
    roundTo2_mul_hundred _⟩

end StressApi
